import Mathlib

/-!
Verification of the CS:GO Game Coordinator item-synchronization layer
(`steam/ext/csgo/state.py`): a shallow embedding of the shared-object (SO)
reconciliation engine (`GCState.update_backpack`), the backpack merge logic,
and the session handlers (`handle_so_create`, `_handle_so_update`,
`handle_so_destroy`, `parse_gc_client_connect`), with theorems settling the
spec's claims about them.

External collaborators (the base transport, protobuf wire parsing, the HTTP
inventory fetch, presence) are modelled as oracle inputs; message bodies are
taken as already-decoded structured values, exactly as the spec scopes them.
-/

set_option autoImplicit false

namespace CsgoGC

/-- Raw attribute bytes: a list of byte values (each conceptually `< 256`). -/
abbrev Bytes := List Nat

/-- `READ_U32 = struct.Struct("<I").unpack_from` applied at offset 0:
little-endian 32-bit unsigned integer from the first four bytes.  Raises
(`none`) when fewer than four bytes are supplied; trailing bytes are ignored. -/
def readU32 : Bytes → Option Nat
  | b0 :: b1 :: b2 :: b3 :: _ => some (b0 + 256 * b1 + 65536 * b2 + 16777216 * b3)
  | _ => none

/-- An IEEE-754 binary32 value represented by its 32-bit pattern.  The Python
code stores the `float` produced by `struct.Struct("<f").unpack_from`; the bit
pattern determines that float, and equal patterns give equal floats. -/
structure Float32 where
  bits : Nat
deriving DecidableEq

/-- `READ_F32 = struct.Struct("<f").unpack_from` applied at offset 0: the
binary32 value whose bit pattern is the little-endian u32 of the first four
bytes; raises (`none`) on fewer than four bytes. -/
def readF32 (b : Bytes) : Option Float32 :=
  (readU32 b).map Float32.mk

/-- `math.floor` of a binary32 value.  A pattern `b` with sign `s`, biased
exponent `e` and mantissa `m` denotes `(-1)^s * num * 2^(max e 1 - 150)` with
`num = 2^23 + m` for normal numbers and `num = m` for subnormals; `math.floor`
raises on `inf`/`nan` (`e = 255`), modelled as `none`.  `Int.fdiv` is floor
division. -/
def floorFloat32 (f : Float32) : Option Int :=
  let s := f.bits / 2 ^ 31 % 2
  let e := f.bits / 2 ^ 23 % 256
  let m := f.bits % 2 ^ 23
  if e = 255 then none
  else
    let num : Nat := if e = 0 then m else 2 ^ 23 + m
    let sgn : Int := if s = 1 then -(num : Int) else (num : Int)
    let ee := max e 1
    if 150 ≤ ee then some (sgn * 2 ^ (ee - 150))
    else some (Int.fdiv sgn (2 ^ (150 - ee)))

/-- Structural helper for `bitDigits`: the first argument is fuel (taking
`fuel = n` suffices since `n / 2 < n` for `n ≥ 1`). -/
def bitDigitsAux : Nat → Nat → Nat
  | 0, _ => 1
  | fuel + 1, n => if n < 2 then 1 else bitDigitsAux fuel (n / 2) + 1

/-- Number of digits of `bin(n)[2:]`, Python's unpadded binary rendering
(`bin(0)[2:] = "0"` has one digit). -/
def bitDigits (n : Nat) : Nat :=
  bitDigitsAux n n

/-- `int(bin(low)[2:] + bin(high)[2:], 2)` — the unpadded binary strings of
`low` and `high` concatenated (low first, i.e. most significant) and re-read
as a binary numeral. -/
def binConcat (low high : Nat) : Nat :=
  low * 2 ^ bitDigits high + high

/-- A UTF-8 continuation byte. -/
def isCont (b : Nat) : Bool := 0x80 ≤ b && b ≤ 0xBF

/-- Strict UTF-8 validity as enforced by Python's `bytes.decode("utf-8")`:
rejects bad lead/continuation bytes, overlong encodings, surrogates and code
points above `U+10FFFF`. -/
def utf8Valid : Bytes → Bool
  | [] => true
  | b :: rest =>
    if b ≤ 0x7F then utf8Valid rest
    else if 0xC2 ≤ b && b ≤ 0xDF then
      match rest with
      | c1 :: r => isCont c1 && utf8Valid r
      | [] => false
    else if 0xE0 ≤ b && b ≤ 0xEF then
      match rest with
      | c1 :: c2 :: r =>
        (if b = 0xE0 then 0xA0 ≤ c1 && c1 ≤ 0xBF
         else if b = 0xED then 0x80 ≤ c1 && c1 ≤ 0x9F
         else isCont c1) && isCont c2 && utf8Valid r
      | _ => false
    else if 0xF0 ≤ b && b ≤ 0xF4 then
      match rest with
      | c1 :: c2 :: c3 :: r =>
        (if b = 0xF0 then 0x90 ≤ c1 && c1 ≤ 0xBF
         else if b = 0xF4 then 0x80 ≤ c1 && c1 ≤ 0x8F
         else isCont c1) && isCont c2 && isCont c3 && utf8Valid r
      | _ => false
    else false

/-- `bytes.decode("utf-8")`: raises (`none`) on invalid UTF-8.  UTF-8 decoding
is injective, so the decoded string is represented by its byte sequence. -/
def utf8DecodeBytes (b : Bytes) : Option Bytes :=
  if utf8Valid b then some b else none

/-- One entry of `CsoEconItem.attribute` (`CsoEconItemAttribute`): a
numerically keyed, opaquely encoded property. -/
structure CsoAttribute where
  def_index : Nat
  value_bytes : Bytes
deriving DecidableEq

/-- The decoded `CsoEconItem` payload of an SO message (protobuf wire parsing
is out of scope; the message arrives as a structured value).  The field list
follows the generated `base_gcmessages.CsoEconItem` dataclass; its
`__annotations__` drive the wholesale field copy in `update_backpack`.
`attribute` is a Lean keyword, so that field is named `attributes` here;
strings are represented by their UTF-8 bytes. -/
structure CsoEconItem where
  id : Nat := 0
  account_id : Nat := 0
  inventory : Nat := 0
  def_index : Nat := 0
  quantity : Nat := 0
  level : Nat := 0
  quality : Nat := 0
  flags : Nat := 0
  origin : Nat := 0
  custom_name : Bytes := []
  custom_desc : Bytes := []
  attributes : List CsoAttribute := []
  in_use : Bool := false
  style : Nat := 0
  original_id : Nat := 0
  rarity : Nat := 0
deriving DecidableEq

/-- Modelled from the spec: a `Sticker` (`.models`, not under `src/`) has a
slot, an id, and optional `wear`/`scale`/`rotation` f32 sub-fields
(`Sticker.get_attrs()` lists those three decodable sub-attribute names).
The sub-fields keep their default `none` in every reachable state: see
`buildStickers`. -/
structure Sticker where
  slot : Nat
  sticker_id : Nat
  wear : Option Float32 := none
  scale : Option Float32 := none
  rotation : Option Float32 := none
deriving DecidableEq

/-- A backpack item (`BackPackItem`).  `asset_id` is the stable inventory
identity used for lookups (`utils.get(backpack, asset_id=...)`); the block of
fields after it mirrors `CsoEconItem.__annotations__` (they are overwritten
wholesale on every merge); the remaining fields are the decoded presentation
fields assigned by `update_backpack`.  `attribute` is a Lean keyword, so that
field is named `attributes`. -/
structure BPItem where
  asset_id : Nat
  id : Nat := 0
  account_id : Nat := 0
  inventory : Nat := 0
  def_index : Nat := 0
  quantity : Nat := 0
  level : Nat := 0
  quality : Nat := 0
  flags : Nat := 0
  origin : Nat := 0
  custom_name : Option Bytes := none
  custom_desc : Option Bytes := none
  attributes : List CsoAttribute := []
  in_use : Bool := false
  style : Nat := 0
  original_id : Nat := 0
  rarity : Nat := 0
  position : Nat := 0
  casket_id : Option Nat := none
  paint_index : Option Float32 := none
  paint_seed : Option Int := none
  paint_wear : Option Float32 := none
  tradable_after : Option Nat := none
  stickers : List Sticker := []
  casket_contained_item_count : Option Nat := none
deriving DecidableEq

/-- The backpack: the ordered top-level item list (`BackPack`, wrapping the
HTTP inventory). -/
structure Backpack where
  items : List BPItem
deriving DecidableEq

/-- `[item.asset_id for item in backpack]`. -/
def itemIds (bp : Backpack) : List Nat :=
  bp.items.map (·.asset_id)

/-- `utils.get(attrs, def_index=d)`: the first attribute whose `def_index`
equals `d`, or `None`. -/
def getAttr (attrs : List CsoAttribute) (d : Nat) : Option CsoAttribute :=
  attrs.find? (fun a => a.def_index == d)

/-- Python truthiness of the item's `custom_name` (`not item.custom_name`):
falsy when `None` or the empty string. -/
def strFalsy : Option Bytes → Bool
  | none => true
  | some s => s.isEmpty

/-- Lines 125-126: `for attribute_name in cso_item.__annotations__:
setattr(item, attribute_name, getattr(cso_item, attribute_name))` — every
payload field is copied wholesale onto the backpack item. -/
def copyAnnotations (i : BPItem) (c : CsoEconItem) : BPItem :=
  { i with
    id := c.id
    account_id := c.account_id
    inventory := c.inventory
    def_index := c.def_index
    quantity := c.quantity
    level := c.level
    quality := c.quality
    flags := c.flags
    origin := c.origin
    custom_name := some c.custom_name
    custom_desc := some c.custom_desc
    attributes := c.attributes
    in_use := c.in_use
    style := c.style
    original_id := c.original_id
    rarity := c.rarity }

/-- Lines 128-129: `is_new = is_cache_subscribe and (cso_item.inventory >> 30) & 1;
item.position = 0 if is_new else cso_item.inventory & 0xFFFF`. -/
def stepPosition (isCacheSub : Bool) (c : CsoEconItem) (i : BPItem) : BPItem :=
  let isNew := isCacheSub && ((c.inventory >>> 30) % 2 == 1)
  { i with position := if isNew then 0 else c.inventory % 65536 }

/-- Lines 131-139: if both container-id attributes (272 low / 273 high) are
present, `item.casket_id = int(bin(READ_U32(low))[2:] + bin(READ_U32(high))[2:], 2)`. -/
def stepCasket (c : CsoEconItem) (i : BPItem) : Option BPItem :=
  match getAttr c.attributes 272, getAttr c.attributes 273 with
  | some lo, some hi => do
    let l ← readU32 lo.value_bytes
    let h ← readU32 hi.value_bytes
    pure { i with casket_id := some (binConcat l h) }
  | _, _ => pure i

/-- Lines 141-143: `custom_name = utils.get(..., def_index=111);
if custom_name and not item.custom_name:
item.custom_name = custom_name.value_bytes[2:].decode("utf-8")`.
At this point `item.custom_name` is whatever `copyAnnotations` installed. -/
def stepName (c : CsoEconItem) (i : BPItem) : Option BPItem :=
  match getAttr c.attributes 111 with
  | some a =>
    if strFalsy i.custom_name then do
      let s ← utf8DecodeBytes (a.value_bytes.drop 2)
      pure { i with custom_name := some s }
    else pure i
  | none => pure i

/-- Lines 145-147: paint index (6), assigned only when present. -/
def stepPaintIndex (c : CsoEconItem) (i : BPItem) : Option BPItem :=
  match getAttr c.attributes 6 with
  | some a => do
    let v ← readF32 a.value_bytes
    pure { i with paint_index := some v }
  | none => pure i

/-- Lines 149-151: paint seed (7), `math.floor` of the decoded f32,
assigned only when present. -/
def stepPaintSeed (c : CsoEconItem) (i : BPItem) : Option BPItem :=
  match getAttr c.attributes 7 with
  | some a => do
    let v ← readF32 a.value_bytes
    let sd ← floorFloat32 v
    pure { i with paint_seed := some sd }
  | none => pure i

/-- Lines 153-155: paint wear (8), assigned only when present. -/
def stepPaintWear (c : CsoEconItem) (i : BPItem) : Option BPItem :=
  match getAttr c.attributes 8 with
  | some a => do
    let v ← readF32 a.value_bytes
    pure { i with paint_wear := some v }
  | none => pure i

/-- Lines 145-155: the three independent paint-attribute blocks in order. -/
def stepPaint (c : CsoEconItem) (i : BPItem) : Option BPItem :=
  stepPaintIndex c i >>= stepPaintSeed c >>= stepPaintWear c

/-- Lines 157-159: tradable-after date (75), a u32 Unix timestamp. -/
def stepTradable (c : CsoEconItem) (i : BPItem) : Option BPItem :=
  match getAttr c.attributes 75 with
  | some a => do
    let v ← readU32 a.value_bytes
    pure { i with tradable_after := some v }
  | none => pure i

/-- Lines 162-173: for each slot `i ∈ 1..5`, if the slot's id attribute
(`113 + i*4`) is present, construct `Sticker(slot=i, sticker_id=READ_U32(...))`
and walk the sub-attributes `114 + i*4 + idx` for the three decodable names.
The source then runs `setattr(sticker, attribute, READ_F32(...))`, passing the
found attribute *object* as the attribute name — `setattr` raises `TypeError`
whenever any such sub-attribute is present, so a present sub-attribute aborts
the merge (`none`) and no sticker sub-field is ever set. -/
def buildStickers (attrs : List CsoAttribute) : List Nat → Option (List Sticker)
  | [] => some []
  | slot :: rest =>
    match getAttr attrs (113 + slot * 4) with
    | some sa => do
      let sid ← readU32 sa.value_bytes
      if (getAttr attrs (114 + slot * 4)).isSome || (getAttr attrs (115 + slot * 4)).isSome
          || (getAttr attrs (116 + slot * 4)).isSome then none
      else do
        let s ← buildStickers attrs rest
        pure (⟨slot, sid, none, none, none⟩ :: s)
    | none => buildStickers attrs rest

/-- Line 161 and 162-173: `item.stickers = []`, then the slot loop.  The slot
loop reads `item.attribute`, which after `copyAnnotations` equals the
payload's attribute list. -/
def stepStickers (i : BPItem) : Option BPItem := do
  let s ← buildStickers i.attributes [1, 2, 3, 4, 5]
  pure { i with stickers := s }

/-- Lines 175-179: storage unit — if `item.def_index == 1201`, reset
`casket_contained_item_count` to 0 and then decode attribute 270 if present. -/
def stepStorage (c : CsoEconItem) (i : BPItem) : Option BPItem :=
  if i.def_index == 1201 then
    let i := { i with casket_contained_item_count := some 0 }
    match getAttr c.attributes 270 with
    | some a => do
      let v ← readU32 a.value_bytes
      pure { i with casket_contained_item_count := some v }
    | none => pure i
  else pure i

/-- The per-item body of the `update_backpack` merge loop (lines 125-179),
applied to an item found in the backpack: the annotation copy, then each
decode-and-assign step in source order.  `none` models an exception escaping
the loop (short attribute bytes, invalid UTF-8, `math.floor` of `nan`/`inf`,
or the sticker `setattr` `TypeError`). -/
def mergeItem (i : BPItem) (c : CsoEconItem) (isCacheSub : Bool) : Option BPItem :=
  stepCasket c (stepPosition isCacheSub c (copyAnnotations i c)) >>= stepName c >>=
    stepPaint c >>= stepTradable c >>= stepStickers >>= stepStorage c

/-- Replace the first item whose `asset_id` is `aid` (the object mutated in
place by the merge loop sits at the position where `utils.get` found it). -/
def replaceFirst (its : List BPItem) (aid : Nat) (new : BPItem) : List BPItem :=
  match its with
  | [] => []
  | i :: rest => if i.asset_id == aid then new :: rest else i :: replaceFirst rest aid new

/-- Lines 121-182, the merge loop: for each payload, look the item up by
`asset_id`; `continue` when absent (line 124, "the item has been removed"),
otherwise merge in place.  (The `items` accumulator built at lines 120/182 is
never read by the source and is dropped here too.) -/
def mergeLoop (its : List BPItem) (csos : List CsoEconItem) (isCacheSub : Bool) :
    Option (List BPItem) :=
  match csos with
  | [] => some its
  | c :: rest =>
    match its.find? (fun i => i.asset_id == c.id) with
    | none => mergeLoop its rest isCacheSub
    | some it => do
      let it2 ← mergeItem it c isCacheSub
      mergeLoop (replaceFirst its c.id it2) rest isCacheSub

/-- One observable action of the consistency/resync protocol in
`update_backpack` (lines 105-118).  `restart` stands for the whole
`restart_csgo` round trip (presence off, `parse_client_goodbye`, presence on,
wait for the re-welcome). -/
inductive SyncAction where
  | fetchOk
  | fetchFail
  | sleep (seconds : Nat)
  | restart
deriving DecidableEq

/-- Oracle results for the external effects of one `update_backpack` call:
`initFetch` is `self._unpatched_inventory(CSGO)` (used only when no backpack
exists yet), `fetch1`/`fetch2` are the two possible `backpack.update()` calls;
`none` models an `HTTPException`. -/
structure SyncEnv where
  initFetch : Option (List BPItem) := none
  fetch1 : Option (List BPItem) := none
  fetch2 : Option (List BPItem) := none
deriving DecidableEq

/-- A `SyncEnv` whose every fetch fails. -/
def defaultEnv : SyncEnv := {}

/-- `GCState.update_backpack` (lines 102-186).  Returns the updated backpack
and the trace of resync actions; `none` models an exception escaping the call
(a failed initial inventory fetch, an `HTTPException` from the *second*,
uncaught `backpack.update()`, or a decode error in the merge loop).  Source
flow:

* line 105: `backpack = self.backpack or BackPack(await self._unpatched_inventory(CSGO))`;
* lines 106-118: if some payload id is unknown, `backpack.update()` guarded by
  `try/except HTTPException: await asyncio.sleep(30)` — note the failed fetch
  is *not* retried after the sleep; ids are recomputed, and if still missing
  the code runs `restart_csgo()` followed by an unguarded `backpack.update()`;
* lines 120-182: the merge loop;
* lines 184-186: store and return the backpack itself (not the merged items).

`backpack.update()` is the external HTTP refetch; it is modelled as replacing
the item list with the oracle's result. -/
def updateBackpack (bp0 : Option Backpack) (csos : List CsoEconItem)
    (isCacheSub : Bool) (env : SyncEnv) : Option (Backpack × List SyncAction) := do
  let bp ← match bp0 with
    | some b => pure b
    | none => (env.initFetch).map Backpack.mk
  let (bp, trace) ←
    if csos.all (fun c => (itemIds bp).contains c.id) then pure (bp, ([] : List SyncAction))
    else
      let (bp, trace) := match env.fetch1 with
        | some its => (Backpack.mk its, [SyncAction.fetchOk])
        | none => (bp, [SyncAction.fetchFail, SyncAction.sleep 30])
      if csos.all (fun c => (itemIds bp).contains c.id) then pure (bp, trace)
      else
        match env.fetch2 with
        | some its => pure (Backpack.mk its, trace ++ [SyncAction.restart, SyncAction.fetchOk])
        | none => none
  let merged ← mergeLoop bp.items csos isCacheSub
  pure (Backpack.mk merged, trace)

/-- The payload of a dispatched event.  Python's `dispatch` is dynamically
typed: `handle_so_create` and `_handle_so_update` pass along whatever
`update_backpack` returned (a `BackPack`), while `handle_so_destroy` passes a
`BackPackItem`. -/
inductive EventPayload where
  | item (i : BPItem)
  | backpack (b : Backpack)
deriving DecidableEq

/-- A consumer-facing event dispatched by the handlers under scrutiny. -/
inductive GCEvent where
  | gcConnect
  | gcReady
  | gcDisconnect
  | itemReceive (payload : EventPayload)
  | itemUpdate (before : EventPayload) (after : EventPayload)
  | itemRemove (payload : EventPayload)
deriving DecidableEq

/-- The session-scoped state the claims touch: the backpack plus the
`_connected` / `_gc_connected` flags. -/
structure GCState where
  backpack : Option Backpack := none
  connected : Bool := false
  gcConnected : Bool := false
deriving DecidableEq

/-- `CMsgSoSingleObject` with its `object_data` already parsed into a
`CsoEconItem` (wire parsing out of scope). -/
structure SoSingleObject where
  type_id : Nat
  object_data : CsoEconItem
deriving DecidableEq

/-- `handle_so_create` (lines 226-235): skip non-items; otherwise
`item = await self.update_backpack(cso_item)` — `update_backpack` returns the
whole `BackPack`, so the `item is None` guard at line 233 can never fire and
the `item_receive` payload is that `BackPack`. -/
def handleSOCreate (st : GCState) (msg : SoSingleObject) (env : SyncEnv) :
    Option (GCState × List GCEvent) :=
  if msg.type_id != 1 then some (st, [])
  else do
    let (bp2, _) ← updateBackpack st.backpack [msg.object_data] false env
    some ({ st with backpack := some bp2 },
      [GCEvent.itemReceive (EventPayload.backpack bp2)])

/-- `_handle_so_update` (lines 253-263): skip non-items; look up `before`
(raising if no backpack exists, since `utils.get` iterates it); skip ids not
in the inventory; otherwise merge and dispatch
`item_update(before, after)` where `after` is the `BackPack` returned by
`update_backpack`.  `before` is the very object the merge mutates in place, so
when no refetch replaced the item list its dispatched value is the merged
item; after a refetch the stale object keeps its pre-call value. -/
def handleSOUpdateSingle (st : GCState) (obj : SoSingleObject) (env : SyncEnv) :
    Option (GCState × List GCEvent) :=
  if obj.type_id != 1 then some (st, [])
  else do
    let bp ← st.backpack
    let c := obj.object_data
    match bp.items.find? (fun i => i.asset_id == c.id) with
    | none => some (st, [])
    | some before => do
      let (bp2, trace) ← updateBackpack st.backpack [c] false env
      let beforeVal :=
        if trace.isEmpty then (bp2.items.find? (fun i => i.asset_id == c.id)).getD before
        else before
      some ({ st with backpack := some bp2 },
        [GCEvent.itemUpdate (EventPayload.item beforeVal) (EventPayload.backpack bp2)])

/-- `handle_so_update_multiple` (lines 248-251): `_handle_so_update` for each
modified object in order.  Each call that reaches `update_backpack` consumes
the next oracle. -/
def handleSOUpdateMultiple (st : GCState) (objs : List SoSingleObject)
    (envs : List SyncEnv) : Option (GCState × List GCEvent) :=
  match objs with
  | [] => some (st, [])
  | o :: rest => do
    let (st1, evs1) ← handleSOUpdateSingle st o (envs.headD defaultEnv)
    let (st2, evs2) ← handleSOUpdateMultiple st1 rest envs.tail
    pure (st2, evs1 ++ evs2)

/-- `backpack.items.remove(item)`: the removed object is the one `utils.get`
found, i.e. the first entry whose `asset_id` matches; entries before it have a
different `asset_id` and cannot equal it. -/
def removeFirstById (its : List BPItem) (aid : Nat) : List BPItem :=
  match its with
  | [] => []
  | i :: rest => if i.asset_id == aid then rest else i :: removeFirstById rest aid

/-- `handle_so_destroy` (lines 265-277): skip non-items and a missing
backpack; skip unknown ids; otherwise copy the payload's fields onto the item,
remove it from the list and dispatch `item_remove` with it.  (An *empty*
backpack is also skipped by Python truthiness, with the same outcome as the
unknown-id path.) -/
def handleSODestroy (st : GCState) (msg : SoSingleObject) : GCState × List GCEvent :=
  if msg.type_id != 1 then (st, [])
  else
    match st.backpack with
    | none => (st, [])
    | some bp =>
      let d := msg.object_data
      match bp.items.find? (fun i => i.asset_id == d.id) with
      | none => (st, [])
      | some it =>
        let it := copyAnnotations it d
        ({ st with backpack := some (Backpack.mk (removeFirstById bp.items d.id)) },
          [GCEvent.itemRemove (EventPayload.item it)])

/-- `CMsgSoCacheSubscribed.objects` entry: one type bucket of the welcome's
out-of-date subscribed cache, with its `object_data` items already parsed. -/
structure CacheBucket where
  type_id : Nat
  object_data : List CsoEconItem
deriving DecidableEq

/-- `CMsgClientWelcome`, reduced to the field the handler reads: each
subscribed cache carries its `objects` buckets. -/
structure ClientWelcome where
  outofdate_subscribed_caches : List (List CacheBucket)
deriving DecidableEq

/-- Lines 83-88: for each bucket of the *first* out-of-date cache, feed the
item buckets (`type_id == 1`) through `update_backpack`.  Note the source
calls `update_backpack` here without `is_cache_subscribe=True` — the flag
keeps its `False` default.  Each `update_backpack` call consumes the next
oracle. -/
def processBuckets (st : GCState) (buckets : List CacheBucket) (envs : List SyncEnv) :
    Option GCState :=
  match buckets with
  | [] => some st
  | b :: rest =>
    if b.type_id == 1 then do
      let (bp2, _) ← updateBackpack st.backpack b.object_data false (envs.headD defaultEnv)
      processBuckets { st with backpack := some bp2 } rest envs.tail
    else
      processBuckets st rest envs

/-- The `async` `parse_gc_client_connect` registered for `ClientWelcome`
(lines 81-91): process the first out-of-date subscribed cache, then — if
`self._connected.is_set()` — set `_gc_connected` and dispatch `gc_ready`.
There is no guard on `_gc_connected` being already set. -/
def parseGcClientConnect (st : GCState) (msg : ClientWelcome) (envs : List SyncEnv) :
    Option (GCState × List GCEvent) := do
  let st ← match msg.outofdate_subscribed_caches with
    | [] => some st
    | cache :: _ => processBuckets st cache envs
  if st.connected then
    some ({ st with gcConnected := true }, [GCEvent.gcReady])
  else
    some (st, [])

/-- `parse_client_goodbye` (lines 76-79): dispatch `gc_disconnect` and clear
`_connected`. -/
def parseClientGoodbye (st : GCState) : GCState × List GCEvent :=
  ({ st with connected := false }, [GCEvent.gcDisconnect])

/-! ### A value/effect factoring of the merge

Every decode in the merge loop reads only the incoming payload (the sticker
sub-attribute probe reads `item.attribute`, which the annotation copy has just
set to the payload's list), so `mergeItem` factors into a payload-only decode
followed by a pure field assignment.  `mergeItem_parts` proves the factoring
against the step-by-step translation above; the claim proofs use it. -/

/-- The `position` value decoded from a payload (lines 128-129). -/
def positionVal (isCacheSub : Bool) (c : CsoEconItem) : Nat :=
  if isCacheSub && ((c.inventory >>> 30) % 2 == 1) then 0 else c.inventory % 65536

/-- The `casket_id` value a payload assigns: `some (some v)` when both
container attributes are present and decode, `some none` when either is
absent, `none` on a decode error. -/
def casketVal (c : CsoEconItem) : Option (Option Nat) :=
  match getAttr c.attributes 272, getAttr c.attributes 273 with
  | some lo, some hi => do
    let l ← readU32 lo.value_bytes
    let h ← readU32 hi.value_bytes
    pure (some (binConcat l h))
  | _, _ => pure none

/-- The `custom_name` value a payload assigns over the already-copied scalar
(`some (some s)` when attribute 111 is present and the copied scalar is
empty). -/
def nameVal (c : CsoEconItem) : Option (Option Bytes) :=
  match getAttr c.attributes 111 with
  | some a =>
    if c.custom_name.isEmpty then (utf8DecodeBytes (a.value_bytes.drop 2)).map some
    else pure none
  | none => pure none

/-- The `paint_index` value a payload assigns. -/
def pIndexVal (c : CsoEconItem) : Option (Option Float32) :=
  match getAttr c.attributes 6 with
  | some a => (readF32 a.value_bytes).map some
  | none => pure none

/-- The `paint_seed` value a payload assigns. -/
def pSeedVal (c : CsoEconItem) : Option (Option Int) :=
  match getAttr c.attributes 7 with
  | some a => do
    let v ← readF32 a.value_bytes
    (floorFloat32 v).map some
  | none => pure none

/-- The `paint_wear` value a payload assigns. -/
def pWearVal (c : CsoEconItem) : Option (Option Float32) :=
  match getAttr c.attributes 8 with
  | some a => (readF32 a.value_bytes).map some
  | none => pure none

/-- The `tradable_after` value a payload assigns. -/
def tradableVal (c : CsoEconItem) : Option (Option Nat) :=
  match getAttr c.attributes 75 with
  | some a => (readU32 a.value_bytes).map some
  | none => pure none

/-- The `casket_contained_item_count` value a payload assigns. -/
def countVal (c : CsoEconItem) : Option (Option Nat) :=
  if c.def_index == 1201 then
    match getAttr c.attributes 270 with
    | some a => (readU32 a.value_bytes).map some
    | none => pure (some 0)
  else pure none

/-- The values `update_backpack` decodes out of one payload.  `none` in an
`Option` component means "attribute absent, leave the field alone". -/
structure MergeParts where
  position : Nat
  casket : Option Nat
  name : Option Bytes
  pIndex : Option Float32
  pSeed : Option Int
  pWear : Option Float32
  tradable : Option Nat
  stickerList : List Sticker
  count : Option Nat
deriving DecidableEq

/-- Decode every assignable value from the payload alone. -/
def decodeParts (c : CsoEconItem) (isCacheSub : Bool) : Option MergeParts := do
  let casket ← casketVal c
  let name ← nameVal c
  let pIndex ← pIndexVal c
  let pSeed ← pSeedVal c
  let pWear ← pWearVal c
  let tradable ← tradableVal c
  let stickerList ← buildStickers c.attributes [1, 2, 3, 4, 5]
  let count ← countVal c
  pure { position := positionVal isCacheSub c,
         casket := casket, name := name, pIndex := pIndex, pSeed := pSeed,
         pWear := pWear, tradable := tradable, stickerList := stickerList,
         count := count }

/-- Assign new field values when decoded, keep the old ones otherwise. -/
def orKeep {α : Type} (new old : Option α) : Option α :=
  match new with
  | some v => some v
  | none => old

/-- Apply decoded parts to the item produced by the annotation copy. -/
def applyParts (i : BPItem) (p : MergeParts) : BPItem :=
  { i with
    position := p.position
    casket_id := orKeep p.casket i.casket_id
    custom_name := orKeep p.name i.custom_name
    paint_index := orKeep p.pIndex i.paint_index
    paint_seed := orKeep p.pSeed i.paint_seed
    paint_wear := orKeep p.pWear i.paint_wear
    tradable_after := orKeep p.tradable i.tradable_after
    stickers := p.stickerList
    casket_contained_item_count := orKeep p.count i.casket_contained_item_count }

theorem stepCasket_eq (c : CsoEconItem) (i : BPItem) :
    stepCasket c i = (casketVal c).map (fun v => { i with casket_id := orKeep v i.casket_id }) := by
  unfold stepCasket casketVal
  cases getAttr c.attributes 272 with
  | none => rfl
  | some lo =>
    cases getAttr c.attributes 273 with
    | none => rfl
    | some hi =>
      dsimp only
      cases readU32 lo.value_bytes with
      | none => rfl
      | some l =>
        cases readU32 hi.value_bytes with
        | none => rfl
        | some h => rfl

theorem stepName_eq (c : CsoEconItem) (i : BPItem)
    (h : i.custom_name = some c.custom_name) :
    stepName c i = (nameVal c).map (fun v => { i with custom_name := orKeep v i.custom_name }) := by
  unfold stepName nameVal
  cases getAttr c.attributes 111 with
  | none => rfl
  | some a =>
    dsimp only
    have hcond : strFalsy i.custom_name = c.custom_name.isEmpty := by
      rw [h]
      rfl
    simp only [hcond]
    cases hn : c.custom_name.isEmpty
    · rfl
    · cases hu : utf8DecodeBytes (a.value_bytes.drop 2) with
      | none => rfl
      | some s => rfl

theorem stepPaintIndex_eq (c : CsoEconItem) (i : BPItem) :
    stepPaintIndex c i = (pIndexVal c).map (fun v => { i with paint_index := orKeep v i.paint_index }) := by
  unfold stepPaintIndex pIndexVal
  cases getAttr c.attributes 6 with
  | none => rfl
  | some a =>
    dsimp only
    cases readF32 a.value_bytes with
    | none => rfl
    | some v => rfl

theorem stepPaintSeed_eq (c : CsoEconItem) (i : BPItem) :
    stepPaintSeed c i = (pSeedVal c).map (fun v => { i with paint_seed := orKeep v i.paint_seed }) := by
  unfold stepPaintSeed pSeedVal
  cases getAttr c.attributes 7 with
  | none => rfl
  | some a =>
    dsimp only
    cases readF32 a.value_bytes with
    | none => rfl
    | some v =>
      simp only [Option.bind_eq_bind', Option.some_bind']
      cases floorFloat32 v with
      | none => rfl
      | some sd => rfl

theorem stepPaintWear_eq (c : CsoEconItem) (i : BPItem) :
    stepPaintWear c i = (pWearVal c).map (fun v => { i with paint_wear := orKeep v i.paint_wear }) := by
  unfold stepPaintWear pWearVal
  cases getAttr c.attributes 8 with
  | none => rfl
  | some a =>
    dsimp only
    cases readF32 a.value_bytes with
    | none => rfl
    | some v => rfl

theorem stepTradable_eq (c : CsoEconItem) (i : BPItem) :
    stepTradable c i = (tradableVal c).map (fun v => { i with tradable_after := orKeep v i.tradable_after }) := by
  unfold stepTradable tradableVal
  cases getAttr c.attributes 75 with
  | none => rfl
  | some a =>
    dsimp only
    cases readU32 a.value_bytes with
    | none => rfl
    | some v => rfl

theorem stepStorage_eq (c : CsoEconItem) (i : BPItem) (h : i.def_index = c.def_index) :
    stepStorage c i = (countVal c).map (fun v => { i with casket_contained_item_count := orKeep v i.casket_contained_item_count }) := by
  unfold stepStorage countVal
  rw [h]
  by_cases hb : (c.def_index == 1201) = true
  · rw [if_pos hb, if_pos hb]
    cases getAttr c.attributes 270 with
    | none => rfl
    | some a =>
      dsimp only
      cases readU32 a.value_bytes with
      | none => rfl
      | some v => rfl
  · rw [if_neg hb, if_neg hb, ← h]
    rfl

theorem stepStickers_eq (i : BPItem) (attrs : List CsoAttribute) (h : i.attributes = attrs) :
    stepStickers i = (buildStickers attrs [1, 2, 3, 4, 5]).map
      (fun s => { i with stickers := s }) := by
  subst h
  unfold stepStickers
  cases buildStickers i.attributes [1, 2, 3, 4, 5] with
  | none => rfl
  | some s => rfl

theorem mergeItem_parts (i : BPItem) (c : CsoEconItem) (f : Bool) :
    mergeItem i c f =
      (decodeParts c f).map (fun p => applyParts (copyAnnotations i c) p) := by
  unfold mergeItem decodeParts stepPaint
  rw [stepCasket_eq]
  cases hcv : casketVal c with
  | none => rfl
  | some v =>
    simp only [Option.bind_eq_bind', Option.map_some', Option.some_bind']
    rw [stepName_eq _ _ rfl]
    cases hnv : nameVal c with
    | none => rfl
    | some nv =>
      simp only [Option.map_some', Option.some_bind']
      rw [stepPaintIndex_eq]
      cases hp1 : pIndexVal c with
      | none => rfl
      | some v1 =>
        simp only [Option.map_some', Option.some_bind']
        rw [stepPaintSeed_eq]
        cases hp2 : pSeedVal c with
        | none => rfl
        | some v2 =>
          simp only [Option.map_some', Option.some_bind']
          rw [stepPaintWear_eq]
          cases hp3 : pWearVal c with
          | none => rfl
          | some v3 =>
            simp only [Option.map_some', Option.some_bind']
            rw [stepTradable_eq]
            cases htv : tradableVal c with
            | none => rfl
            | some tv =>
              simp only [Option.map_some', Option.some_bind']
              rw [stepStickers_eq _ c.attributes rfl]
              cases hbs : buildStickers c.attributes [1, 2, 3, 4, 5] with
              | none => rfl
              | some sl =>
                simp only [Option.map_some', Option.some_bind']
                rw [stepStorage_eq _ _ rfl]
                cases hct : countVal c with
                | none => rfl
                | some ct => rfl

theorem decodeParts_fields (c : CsoEconItem) (f : Bool) (p : MergeParts)
    (h : decodeParts c f = some p) :
    casketVal c = some p.casket ∧ nameVal c = some p.name ∧
    pIndexVal c = some p.pIndex ∧ pSeedVal c = some p.pSeed ∧
    pWearVal c = some p.pWear ∧ tradableVal c = some p.tradable ∧
    buildStickers c.attributes [1, 2, 3, 4, 5] = some p.stickerList ∧
    countVal c = some p.count ∧ p.position = positionVal f c := by
  simp only [decodeParts, Option.bind_eq_bind', Option.bind_eq_some'] at h
  obtain ⟨cv, hcv, nv, hnv, p1, hp1, p2, hp2, p3, hp3, tv, htv, sl, hsl, ct, hct, hp⟩ := h
  rw [Option.pure_def, Option.some_inj] at hp
  subst hp
  exact ⟨hcv, hnv, hp1, hp2, hp3, htv, hsl, hct, rfl⟩

theorem mergeItem_fields (i : BPItem) (c : CsoEconItem) (f : Bool) (r : BPItem)
    (hm : mergeItem i c f = some r) :
    ∃ p, decodeParts c f = some p ∧ r = applyParts (copyAnnotations i c) p := by
  rw [mergeItem_parts] at hm
  cases hdp : decodeParts c f with
  | none => rw [hdp] at hm; cases hm
  | some p =>
    rw [hdp] at hm
    simp only [Option.map_some', Option.some_inj] at hm
    exact ⟨p, rfl, hm.symm⟩

theorem utf8DecodeBytes_eq {b s : Bytes} (h : utf8DecodeBytes b = some s) : s = b := by
  unfold utf8DecodeBytes at h
  by_cases hv : utf8Valid b = true
  · rw [if_pos hv, Option.some_inj] at h
    exact h.symm
  · rw [if_neg hv] at h
    cases h

theorem mergeItem_asset_id (i : BPItem) (c : CsoEconItem) (f : Bool) (r : BPItem)
    (hm : mergeItem i c f = some r) : r.asset_id = i.asset_id := by
  obtain ⟨p, _, hr⟩ := mergeItem_fields i c f r hm
  subst hr
  rfl

theorem orKeep_orKeep {α : Type} (x y : Option α) : orKeep x (orKeep x y) = orKeep x y := by
  cases x <;> rfl

theorem applyParts_idem (i : BPItem) (c : CsoEconItem) (p : MergeParts) :
    applyParts (copyAnnotations (applyParts (copyAnnotations i c) p) c) p =
      applyParts (copyAnnotations i c) p := by
  simp only [applyParts, copyAnnotations, orKeep_orKeep]

theorem mergeItem_idem (i : BPItem) (c : CsoEconItem) (f : Bool) (r : BPItem)
    (hm : mergeItem i c f = some r) : mergeItem r c f = some r := by
  obtain ⟨p, hdp, hr⟩ := mergeItem_fields i c f r hm
  rw [mergeItem_parts, hdp]
  simp only [Option.map_some', Option.some_inj]
  rw [hr]
  exact applyParts_idem i c p

theorem beqNat_comm (a n : Nat) : (n == a) = (a == n) := by
  cases h : n == a
  · cases h2 : a == n
    · rfl
    · simp_all
  · cases h2 : a == n
    · simp_all
    · rfl

theorem contains_eq_findSome (its : List BPItem) (n : Nat) :
    (its.map (·.asset_id)).contains n = (its.find? (fun i => i.asset_id == n)).isSome := by
  induction its with
  | nil => rfl
  | cons a t ih =>
    simp only [List.map_cons, List.contains_cons, List.find?_cons]
    cases h : a.asset_id == n
    · rw [beqNat_comm a.asset_id n, h]
      simp only [Bool.false_or, ih]
    · rw [beqNat_comm a.asset_id n, h]
      rfl

theorem find?_replaceFirst (its : List BPItem) (n : Nat) (r it : BPItem)
    (hf : its.find? (fun i => i.asset_id == n) = some it)
    (hr : (r.asset_id == n) = true) :
    (replaceFirst its n r).find? (fun i => i.asset_id == n) = some r := by
  induction its with
  | nil => cases hf
  | cons a t ih =>
    simp only [List.find?_cons] at hf
    unfold replaceFirst
    cases h : a.asset_id == n
    · rw [h] at hf
      simp only [cond_false] at hf
      show List.find? (fun i => i.asset_id == n) (a :: replaceFirst t n r) = some r
      simp only [List.find?_cons, h]
      exact ih hf
    · show List.find? (fun i => i.asset_id == n) (r :: t) = some r
      simp only [List.find?_cons, hr]

theorem replaceFirst_self (its : List BPItem) (n : Nat) (it : BPItem)
    (hf : its.find? (fun i => i.asset_id == n) = some it) :
    replaceFirst its n it = its := by
  induction its with
  | nil => rfl
  | cons a t ih =>
    simp only [List.find?_cons] at hf
    unfold replaceFirst
    cases h : a.asset_id == n
    · rw [h] at hf
      simp only [cond_false] at hf
      show a :: replaceFirst t n it = a :: t
      rw [ih hf]
    · rw [h] at hf
      simp only [cond_true, Option.some_inj] at hf
      show it :: t = a :: t
      rw [hf]

theorem mergeLoop_single (its : List BPItem) (c : CsoEconItem) (f : Bool) (it : BPItem)
    (hf : its.find? (fun i => i.asset_id == c.id) = some it) :
    mergeLoop its [c] f = (mergeItem it c f).map (fun it2 => replaceFirst its c.id it2) := by
  unfold mergeLoop
  rw [hf]
  dsimp only
  cases mergeItem it c f with
  | none => rfl
  | some it2 => rfl

theorem mergeLoop_skips_unknown_head (its : List BPItem) (c : CsoEconItem)
    (rest : List CsoEconItem) (f : Bool)
    (h : its.find? (fun i => i.asset_id == c.id) = none) :
    mergeLoop its (c :: rest) f = mergeLoop its rest f := by
  conv_lhs => rw [mergeLoop]
  rw [h]

theorem updateBackpack_known (bp : Backpack) (csos : List CsoEconItem) (f : Bool) (env : SyncEnv)
    (h : csos.all (fun c => (itemIds bp).contains c.id) = true) :
    updateBackpack (some bp) csos f env =
      (mergeLoop bp.items csos f).map (fun m => (Backpack.mk m, [])) := by
  unfold updateBackpack
  simp only [Option.pure_def, Option.bind_eq_bind', Option.some_bind', h, eq_self_iff_true,
    if_true]
  cases mergeLoop bp.items csos f <;> rfl

theorem updateBackpack_failRestart (bp : Backpack) (csos : List CsoEconItem) (f : Bool)
    (env : SyncEnv) (l : List BPItem)
    (hunk : csos.all (fun c => (itemIds bp).contains c.id) = false)
    (hf1 : env.fetch1 = none) (hf2 : env.fetch2 = some l) :
    updateBackpack (some bp) csos f env =
      (mergeLoop l csos f).map (fun m => (Backpack.mk m,
        [SyncAction.fetchFail, SyncAction.sleep 30, SyncAction.restart, SyncAction.fetchOk])) := by
  unfold updateBackpack
  simp only [Option.pure_def, Option.bind_eq_bind', Option.some_bind', hunk,
    Bool.false_eq_true, if_false, hf1, hf2]
  cases mergeLoop l csos f <;> rfl

theorem processBuckets_flags (buckets : List CacheBucket) (envs : List SyncEnv)
    (st st2 : GCState) (h : processBuckets st buckets envs = some st2) :
    st2.connected = st.connected ∧ st2.gcConnected = st.gcConnected := by
  induction buckets generalizing st envs with
  | nil =>
    unfold processBuckets at h
    rw [Option.some_inj] at h
    rw [← h]
    exact ⟨rfl, rfl⟩
  | cons b rest ih =>
    unfold processBuckets at h
    cases hb : b.type_id == 1
    · rw [hb] at h
      simp only [Bool.false_eq_true, if_false] at h
      exact ih _ _ h
    · rw [hb] at h
      simp only [if_true] at h
      cases hu : updateBackpack st.backpack b.object_data false (envs.headD defaultEnv) with
      | none => rw [hu] at h; cases h
      | some r =>
        obtain ⟨bp2, tr⟩ := r
        rw [hu] at h
        simp only [Option.bind_eq_bind', Option.some_bind'] at h
        exact ih envs.tail { st with backpack := some bp2 } h

/-! ### Claims -/

/-- C2 (counterexample): with both container attributes present and each half
decoding to the little-endian u32 value 1, the merge sets `casket_id` to
`int(bin(1)[2:] + bin(1)[2:], 2) = 3`, not to `(1 << 32) | 1` as the claim
states. -/
theorem casket_id_combination_counterexample :
    (mergeItem { asset_id := 1 }
        { id := 1, attributes := [⟨272, [1, 0, 0, 0]⟩, ⟨273, [1, 0, 0, 0]⟩] } false).map
      (fun r => r.casket_id) = some (some 3) ∧
    (3 : Nat) ≠ ((1 <<< 32) ||| 1) := by
  exact ⟨by decide, by decide⟩

/-- C2 (amended): when both container attributes (definition indices 272 and
273) are present and decode as little-endian u32 values `l` and `h`, the
merged item's `casket_id` is the unpadded binary-string concatenation
`int(bin(l)[2:] + bin(h)[2:], 2) = l * 2^(digits of h) + h`, not
`(h << 32) | l`. -/
theorem mergeItem_casket_id_binConcat
    (i : BPItem) (c : CsoEconItem) (f : Bool) (r : BPItem) (lo hi : CsoAttribute) (l h : Nat)
    (h272 : getAttr c.attributes 272 = some lo)
    (h273 : getAttr c.attributes 273 = some hi)
    (hl : readU32 lo.value_bytes = some l)
    (hh : readU32 hi.value_bytes = some h)
    (hm : mergeItem i c f = some r) :
    r.casket_id = some (binConcat l h) := by
  obtain ⟨p, hdp, hr⟩ := mergeItem_fields i c f r hm
  obtain ⟨hcv, -, -, -, -, -, -, -, -⟩ := decodeParts_fields c f p hdp
  have hc : casketVal c = some (some (binConcat l h)) := by
    unfold casketVal
    rw [h272, h273]
    dsimp only
    rw [hl]
    simp only [Option.bind_eq_bind', Option.some_bind']
    rw [hh]
    rfl
  rw [hc] at hcv
  have hpc : p.casket = some (binConcat l h) := (Option.some_inj.mp hcv).symm
  subst hr
  show orKeep p.casket (copyAnnotations i c).casket_id = some (binConcat l h)
  rw [hpc]
  rfl

/-- C2 (witness): a concrete run of `mergeItem_casket_id_binConcat` at
`l = 2`, `h = 1` (so `casket_id = "10" ++ "1" = 0b101 = 5`). -/
theorem mergeItem_casket_id_binConcat_witness :
    ((mergeItem { asset_id := 1 }
        { id := 1, attributes := [⟨272, [2, 0, 0, 0]⟩, ⟨273, [1, 0, 0, 0]⟩] } false).getD
        { asset_id := 0 }).casket_id = some (binConcat 2 1) :=
  mergeItem_casket_id_binConcat { asset_id := 1 }
    { id := 1, attributes := [⟨272, [2, 0, 0, 0]⟩, ⟨273, [1, 0, 0, 0]⟩] } false
    ((mergeItem { asset_id := 1 }
        { id := 1, attributes := [⟨272, [2, 0, 0, 0]⟩, ⟨273, [1, 0, 0, 0]⟩] } false).getD
        { asset_id := 0 })
    ⟨272, [2, 0, 0, 0]⟩ ⟨273, [1, 0, 0, 0]⟩ 2 1 (by decide) (by decide) (by decide) (by decide)
    (by decide)

/-- C4 (counterexample): the merge first overwrites `custom_name` with the
payload's scalar `custom_name` field (the reflection copy of every
`CsoEconItem` annotation), so (a) a payload *without* the name attribute wipes
a previously-held name instead of keeping it, and (b) a payload carrying both
a non-empty scalar and the name attribute keeps the scalar, not the decoded
attribute. -/
theorem custom_name_prior_value_lost_counterexample :
    (mergeItem { asset_id := 1, custom_name := some [107, 101, 101, 112] } { id := 1 } false).map
      (fun r => r.custom_name) = some (some []) ∧
    some ([] : Bytes) ≠ some [107, 101, 101, 112] ∧
    (mergeItem { asset_id := 1 }
        { id := 1, custom_name := [120],
          attributes := [⟨111, [0, 0, 110, 101, 119]⟩] } false).map
      (fun r => r.custom_name) = some (some [120]) ∧
    some ([120] : Bytes) ≠ some [110, 101, 119] := by
  exact ⟨by decide, by decide, by decide, by decide⟩

/-- C4 (amended): after a successful merge, `custom_name` is exactly the
payload's scalar `custom_name` field unless that scalar is empty and the name
attribute (111) is present, in which case it is the attribute's value bytes
minus the 2-byte prefix; the pre-merge value never survives. -/
theorem mergeItem_custom_name_from_payload (i : BPItem) (c : CsoEconItem) (f : Bool) (r : BPItem)
    (hm : mergeItem i c f = some r) :
    (getAttr c.attributes 111 = none → r.custom_name = some c.custom_name) ∧
    (c.custom_name ≠ [] → r.custom_name = some c.custom_name) ∧
    (∀ a, getAttr c.attributes 111 = some a → c.custom_name = [] →
      r.custom_name = some (a.value_bytes.drop 2)) := by
  obtain ⟨p, hdp, hr⟩ := mergeItem_fields i c f r hm
  obtain ⟨-, hnv, -, -, -, -, -, -, -⟩ := decodeParts_fields c f p hdp
  subst hr
  refine ⟨?_, ?_, ?_⟩
  · intro ha
    have hv : nameVal c = some none := by
      unfold nameVal
      rw [ha]
      rfl
    rw [hv] at hnv
    have hpn : p.name = none := (Option.some_inj.mp hnv).symm
    show orKeep p.name (copyAnnotations i c).custom_name = some c.custom_name
    rw [hpn]
    rfl
  · intro hne
    have hemp : c.custom_name.isEmpty = false := by
      cases hcn : c.custom_name
      · exact absurd hcn hne
      · rfl
    have hv : nameVal c = some none := by
      unfold nameVal
      cases ha : getAttr c.attributes 111
      · rfl
      · dsimp only
        rw [hemp]
        rfl
    rw [hv] at hnv
    have hpn : p.name = none := (Option.some_inj.mp hnv).symm
    show orKeep p.name (copyAnnotations i c).custom_name = some c.custom_name
    rw [hpn]
    rfl
  · intro a ha hemp
    have hempb : c.custom_name.isEmpty = true := by
      rw [hemp]
      rfl
    have hv : nameVal c = (utf8DecodeBytes (a.value_bytes.drop 2)).map some := by
      unfold nameVal
      rw [ha]
      dsimp only
      rw [hempb]
      rfl
    rw [hv] at hnv
    cases hu : utf8DecodeBytes (a.value_bytes.drop 2) with
    | none => rw [hu] at hnv; cases hnv
    | some s =>
      rw [hu] at hnv
      simp only [Option.map_some', Option.some_inj] at hnv
      have hs : s = a.value_bytes.drop 2 := utf8DecodeBytes_eq hu
      show orKeep p.name (copyAnnotations i c).custom_name = some (a.value_bytes.drop 2)
      rw [← hnv, hs]
      rfl

/-- C4 (witness): a concrete run of `mergeItem_custom_name_from_payload` on a
payload with an empty scalar and the name attribute decoding to "new". -/
theorem mergeItem_custom_name_from_payload_witness :
    ((getAttr ([⟨111, [0, 0, 110, 101, 119]⟩] : List CsoAttribute) 111 = none →
      ((mergeItem { asset_id := 1, custom_name := some [107] }
          { id := 1, attributes := [⟨111, [0, 0, 110, 101, 119]⟩] } false).getD
          { asset_id := 0 }).custom_name = some []) ∧
    (([] : Bytes) ≠ [] →
      ((mergeItem { asset_id := 1, custom_name := some [107] }
          { id := 1, attributes := [⟨111, [0, 0, 110, 101, 119]⟩] } false).getD
          { asset_id := 0 }).custom_name = some []) ∧
    (∀ a, getAttr ([⟨111, [0, 0, 110, 101, 119]⟩] : List CsoAttribute) 111 = some a →
      ([] : Bytes) = [] →
      ((mergeItem { asset_id := 1, custom_name := some [107] }
          { id := 1, attributes := [⟨111, [0, 0, 110, 101, 119]⟩] } false).getD
          { asset_id := 0 }).custom_name = some (a.value_bytes.drop 2))) :=
  mergeItem_custom_name_from_payload { asset_id := 1, custom_name := some [107] }
    { id := 1, attributes := [⟨111, [0, 0, 110, 101, 119]⟩] } false
    ((mergeItem { asset_id := 1, custom_name := some [107] }
        { id := 1, attributes := [⟨111, [0, 0, 110, 101, 119]⟩] } false).getD
        { asset_id := 0 })
    (by decide)

/-- C5 (counterexample): merging a payload that carries only the paint-index
attribute onto an item that already has `paint_wear = 0.5` keeps the old wear
(bit pattern `0x3F000000`), instead of leaving it unset on a freshly
allocated paint value as the claim states. -/
theorem paint_wear_inherited_counterexample :
    (mergeItem { asset_id := 1, paint_wear := some ⟨1056964608⟩ }
        { id := 1, attributes := [⟨6, [0, 0, 0, 0]⟩] } false).map
      (fun r => (r.paint_index, r.paint_wear)) =
      some (some ⟨0⟩, some ⟨1056964608⟩) ∧
    (some (⟨1056964608⟩ : Float32) : Option Float32) ≠ none := by
  exact ⟨by decide, by decide⟩

/-- C5 (amended): the three paint sub-fields are updated independently and
sparsely — each present attribute overwrites its field (the seed as
`math.floor` of the decoded f32), and each absent attribute leaves the item's
previous value in place; no fresh paint value is allocated. -/
theorem mergeItem_paint_sparse (i : BPItem) (c : CsoEconItem) (f : Bool) (r : BPItem)
    (hm : mergeItem i c f = some r) :
    (getAttr c.attributes 6 = none → r.paint_index = i.paint_index) ∧
    (getAttr c.attributes 7 = none → r.paint_seed = i.paint_seed) ∧
    (getAttr c.attributes 8 = none → r.paint_wear = i.paint_wear) ∧
    (∀ a v, getAttr c.attributes 6 = some a → readF32 a.value_bytes = some v →
      r.paint_index = some v) ∧
    (∀ a v sd, getAttr c.attributes 7 = some a → readF32 a.value_bytes = some v →
      floorFloat32 v = some sd → r.paint_seed = some sd) ∧
    (∀ a v, getAttr c.attributes 8 = some a → readF32 a.value_bytes = some v →
      r.paint_wear = some v) := by
  obtain ⟨p, hdp, hr⟩ := mergeItem_fields i c f r hm
  obtain ⟨-, -, h1, h2, h3, -, -, -, -⟩ := decodeParts_fields c f p hdp
  subst hr
  refine ⟨?_, ?_, ?_, ?_, ?_, ?_⟩
  · intro ha
    have hv : pIndexVal c = some none := by unfold pIndexVal; rw [ha]; rfl
    rw [hv] at h1
    have hp : p.pIndex = none := (Option.some_inj.mp h1).symm
    show orKeep p.pIndex (copyAnnotations i c).paint_index = i.paint_index
    rw [hp]
    rfl
  · intro ha
    have hv : pSeedVal c = some none := by unfold pSeedVal; rw [ha]; rfl
    rw [hv] at h2
    have hp : p.pSeed = none := (Option.some_inj.mp h2).symm
    show orKeep p.pSeed (copyAnnotations i c).paint_seed = i.paint_seed
    rw [hp]
    rfl
  · intro ha
    have hv : pWearVal c = some none := by unfold pWearVal; rw [ha]; rfl
    rw [hv] at h3
    have hp : p.pWear = none := (Option.some_inj.mp h3).symm
    show orKeep p.pWear (copyAnnotations i c).paint_wear = i.paint_wear
    rw [hp]
    rfl
  · intro a v ha hv
    have hval : pIndexVal c = some (some v) := by
      unfold pIndexVal
      rw [ha]
      dsimp only
      rw [hv]
      rfl
    rw [hval] at h1
    have hp : p.pIndex = some v := (Option.some_inj.mp h1).symm
    show orKeep p.pIndex (copyAnnotations i c).paint_index = some v
    rw [hp]
    rfl
  · intro a v sd ha hv hsd
    have hval : pSeedVal c = some (some sd) := by
      unfold pSeedVal
      rw [ha]
      dsimp only
      rw [hv]
      simp only [Option.bind_eq_bind', Option.some_bind']
      rw [hsd]
      rfl
    rw [hval] at h2
    have hp : p.pSeed = some sd := (Option.some_inj.mp h2).symm
    show orKeep p.pSeed (copyAnnotations i c).paint_seed = some sd
    rw [hp]
    rfl
  · intro a v ha hv
    have hval : pWearVal c = some (some v) := by
      unfold pWearVal
      rw [ha]
      dsimp only
      rw [hv]
      rfl
    rw [hval] at h3
    have hp : p.pWear = some v := (Option.some_inj.mp h3).symm
    show orKeep p.pWear (copyAnnotations i c).paint_wear = some v
    rw [hp]
    rfl

/-- C5 (witness): a concrete run of `mergeItem_paint_sparse` on the spec's
scenario — paint-index `f32 0.0`, paint-seed `f32 12.9` (bit pattern
`0x414E6666`, floor 12), no paint-wear, old wear `0.5` — extracting that the
seed becomes 12 and the wear is inherited unchanged. -/
theorem mergeItem_paint_sparse_witness :
    ((mergeItem { asset_id := 1, paint_wear := some ⟨1056964608⟩ }
        { id := 1, attributes := [⟨6, [0, 0, 0, 0]⟩, ⟨7, [102, 102, 78, 65]⟩] } false).getD
        { asset_id := 0 }).paint_seed = some 12 ∧
    ((mergeItem { asset_id := 1, paint_wear := some ⟨1056964608⟩ }
        { id := 1, attributes := [⟨6, [0, 0, 0, 0]⟩, ⟨7, [102, 102, 78, 65]⟩] } false).getD
        { asset_id := 0 }).paint_wear = some ⟨1056964608⟩ :=
  ⟨(mergeItem_paint_sparse { asset_id := 1, paint_wear := some ⟨1056964608⟩ }
      { id := 1, attributes := [⟨6, [0, 0, 0, 0]⟩, ⟨7, [102, 102, 78, 65]⟩] } false
      ((mergeItem { asset_id := 1, paint_wear := some ⟨1056964608⟩ }
          { id := 1, attributes := [⟨6, [0, 0, 0, 0]⟩, ⟨7, [102, 102, 78, 65]⟩] } false).getD
          { asset_id := 0 })
      (by decide)).2.2.2.2.1 ⟨7, [102, 102, 78, 65]⟩ ⟨1095657062⟩ 12 (by decide) (by decide)
      (by decide),
   (mergeItem_paint_sparse { asset_id := 1, paint_wear := some ⟨1056964608⟩ }
      { id := 1, attributes := [⟨6, [0, 0, 0, 0]⟩, ⟨7, [102, 102, 78, 65]⟩] } false
      ((mergeItem { asset_id := 1, paint_wear := some ⟨1056964608⟩ }
          { id := 1, attributes := [⟨6, [0, 0, 0, 0]⟩, ⟨7, [102, 102, 78, 65]⟩] } false).getD
          { asset_id := 0 })
      (by decide)).2.2.1 (by decide)⟩

/-- C3 (counterexample): an incoming payload whose id is not in the backpack
(even after both refetches) is dropped entirely, whether or not it carries
both container-id attributes: the resulting backpack is unchanged and no
side-table exists to stage it.  A later payload with the same id and no
container attributes is dropped the same way, so nothing ever "moves to the
top-level list". -/
theorem casket_item_not_staged_counterexample :
    updateBackpack (some (Backpack.mk [{ asset_id := 1 }]))
      [{ id := 2, attributes := [⟨272, [1, 0, 0, 0]⟩, ⟨273, [0, 0, 0, 0]⟩] }] false
      ⟨none, some [{ asset_id := 1 }], some [{ asset_id := 1 }]⟩ =
      some (Backpack.mk [{ asset_id := 1 }],
        [SyncAction.fetchOk, SyncAction.restart, SyncAction.fetchOk]) ∧
    updateBackpack (some (Backpack.mk [{ asset_id := 1 }])) [{ id := 2 }] false
      ⟨none, some [{ asset_id := 1 }], some [{ asset_id := 1 }]⟩ =
      some (Backpack.mk [{ asset_id := 1 }],
        [SyncAction.fetchOk, SyncAction.restart, SyncAction.fetchOk]) := by
  exact ⟨by decide, by decide⟩

/-- C3 (amended): the merge loop skips a payload whose id finds no item in
the backpack — it is not staged anywhere (there is no casket-items
side-table in this code path), regardless of which attributes it carries. -/
theorem mergeLoop_drops_unknown_id (its : List BPItem) (c : CsoEconItem) (f : Bool)
    (h : its.find? (fun i => i.asset_id == c.id) = none) :
    mergeLoop its [c] f = some its := by
  rw [mergeLoop_skips_unknown_head its c [] f h]
  rfl

/-- C3 (witness): a concrete run of `mergeLoop_drops_unknown_id` on a payload
carrying both container-id attributes. -/
theorem mergeLoop_drops_unknown_id_witness :
    mergeLoop [{ asset_id := 1 }]
      [{ id := 2, attributes := [⟨272, [1, 0, 0, 0]⟩, ⟨273, [0, 0, 0, 0]⟩] }] false =
      some [{ asset_id := 1 }] :=
  mergeLoop_drops_unknown_id [{ asset_id := 1 }]
    { id := 2, attributes := [⟨272, [1, 0, 0, 0]⟩, ⟨273, [0, 0, 0, 0]⟩] } false (by decide)

/-- C7 (counterexample): with an unknown id, a failing first fetch and a
succeeding post-restart fetch, the action trace is
`[fetchFail, sleep 30, restart, fetchOk]` — the action immediately after the
30-unit sleep is the GC session restart, not a retry of the fetch as the
claim states. -/
theorem fetch_fail_no_retry_counterexample :
    updateBackpack (some (Backpack.mk [{ asset_id := 1 }])) [{ id := 2 }] false
      ⟨none, none, some [{ asset_id := 1 }]⟩ =
      some (Backpack.mk [{ asset_id := 1 }],
        [SyncAction.fetchFail, SyncAction.sleep 30, SyncAction.restart, SyncAction.fetchOk]) ∧
    [SyncAction.fetchFail, SyncAction.sleep 30, SyncAction.restart, SyncAction.fetchOk][2]? =
      some SyncAction.restart ∧
    SyncAction.restart ≠ SyncAction.fetchOk ∧ SyncAction.restart ≠ SyncAction.fetchFail := by
  exact ⟨by decide, by decide, by decide, by decide⟩

/-- C7 (amended): when some incoming id is unknown, the engine fetches the
inventory once; if that fetch fails with a transient transport error it waits
the 30-unit backoff and does *not* retry the fetch — the ids are still
missing, so it proceeds directly to the full GC session restart followed by
one more fetch, and merges against that result. -/
theorem updateBackpack_failRestart_no_retry (bp : Backpack) (csos : List CsoEconItem)
    (f : Bool) (env : SyncEnv) (l : List BPItem)
    (hunk : csos.all (fun c => (itemIds bp).contains c.id) = false)
    (hf1 : env.fetch1 = none) (hf2 : env.fetch2 = some l) :
    updateBackpack (some bp) csos f env =
      (mergeLoop l csos f).map (fun m => (Backpack.mk m,
        [SyncAction.fetchFail, SyncAction.sleep 30, SyncAction.restart, SyncAction.fetchOk])) :=
  updateBackpack_failRestart bp csos f env l hunk hf1 hf2

/-- C7 (witness): a concrete run of `updateBackpack_failRestart_no_retry`. -/
theorem updateBackpack_failRestart_no_retry_witness :
    updateBackpack (some (Backpack.mk [{ asset_id := 3 }])) [{ id := 4 }] false
      ⟨none, none, some [{ asset_id := 3 }]⟩ =
      (mergeLoop [{ asset_id := 3 }] [{ id := 4 }] false).map (fun m => (Backpack.mk m,
        [SyncAction.fetchFail, SyncAction.sleep 30, SyncAction.restart, SyncAction.fetchOk])) :=
  updateBackpack_failRestart_no_retry (Backpack.mk [{ asset_id := 3 }]) [{ id := 4 }] false
    ⟨none, none, some [{ asset_id := 3 }]⟩ [{ asset_id := 3 }] (by decide) (by decide) (by decide)

/-- C9: applying the same SO-Update payload twice in a row to the same
backpack is idempotent — when the id is known, the first application touches
the store without any resync action, and the second application returns the
identical backpack (hence an identical resulting item: stickers are rebuilt
from scratch, and position, paint, custom_name, casket_id and all copied
fields are recomputed to the same values). -/
theorem updateBackpack_idempotent (bp : Backpack) (c : CsoEconItem) (env env2 : SyncEnv)
    (bp1 : Backpack) (tr : List SyncAction)
    (hknown : (itemIds bp).contains c.id = true)
    (h1 : updateBackpack (some bp) [c] false env = some (bp1, tr)) :
    updateBackpack (some bp1) [c] false env2 = some (bp1, []) ∧ tr = [] := by
  have hall : ([c].all (fun x => (itemIds bp).contains x.id)) = true := by
    simp only [List.all_cons, List.all_nil, Bool.and_true]
    exact hknown
  rw [updateBackpack_known bp [c] false env hall] at h1
  have hfindS : (bp.items.find? (fun i => i.asset_id == c.id)).isSome = true := by
    rw [← contains_eq_findSome]
    exact hknown
  obtain ⟨it, hf⟩ := Option.isSome_iff_exists.mp hfindS
  rw [mergeLoop_single bp.items c false it hf] at h1
  cases hmi : mergeItem it c false with
  | none => rw [hmi] at h1; cases h1
  | some it2 =>
    rw [hmi] at h1
    simp only [Option.map_some', Option.some_inj, Prod.mk.injEq] at h1
    obtain ⟨hbp1, htr⟩ := h1
    have hid2 : (it2.asset_id == c.id) = true := by
      have hb := @List.find?_some BPItem (fun i => i.asset_id == c.id) it bp.items hf
      rw [mergeItem_asset_id it c false it2 hmi]
      exact hb
    have hf2 : bp1.items.find? (fun i => i.asset_id == c.id) = some it2 := by
      rw [← hbp1]
      exact find?_replaceFirst bp.items c.id it2 it hf hid2
    have hknown2 : ([c].all (fun x => (itemIds bp1).contains x.id)) = true := by
      simp only [List.all_cons, List.all_nil, Bool.and_true]
      show (bp1.items.map (fun i => i.asset_id)).contains c.id = true
      rw [contains_eq_findSome, hf2]
      rfl
    refine ⟨?_, htr.symm⟩
    rw [updateBackpack_known bp1 [c] false env2 hknown2]
    rw [mergeLoop_single bp1.items c false it2 hf2]
    rw [mergeItem_idem it c false it2 hmi]
    simp only [Option.map_some']
    rw [replaceFirst_self bp1.items c.id it2 hf2]

/-- C9 (witness): a concrete run of `updateBackpack_idempotent`. -/
theorem updateBackpack_idempotent_witness :
    updateBackpack
      (some (((updateBackpack (some (Backpack.mk [{ asset_id := 7 }])) [{ id := 7 }] false
        defaultEnv).getD (Backpack.mk [], [])).1)) [{ id := 7 }] false defaultEnv =
      some ((((updateBackpack (some (Backpack.mk [{ asset_id := 7 }])) [{ id := 7 }] false
        defaultEnv).getD (Backpack.mk [], [])).1), []) ∧
    ([] : List SyncAction) = [] :=
  updateBackpack_idempotent (Backpack.mk [{ asset_id := 7 }]) { id := 7 } defaultEnv defaultEnv
    (((updateBackpack (some (Backpack.mk [{ asset_id := 7 }])) [{ id := 7 }] false
      defaultEnv).getD (Backpack.mk [], [])).1) [] (by decide) (by decide)

/-- C1 (code bug): `update_backpack` returns the whole `BackPack` (its
`items` accumulator is built and discarded), so for an SO-Create/SO-Update
whose id is in the backpack the handlers dispatch the *backpack* — here one
containing both items 1 and 2 — as the `item_receive` payload and as the
`after` argument of `item_update`, not the merged `Item` the claim (and the
callers' own `item is None` guard and variable names) expect. -/
theorem handlers_dispatch_whole_backpack :
    ((handleSOCreate
        { backpack := some (Backpack.mk [{ asset_id := 1 }, { asset_id := 2 }]),
          connected := true, gcConnected := true }
        ⟨1, { id := 1 }⟩ defaultEnv).map (fun res =>
      match res.2 with
      | [GCEvent.itemReceive (EventPayload.backpack b)] =>
        some (b.items.map (fun i => i.asset_id))
      | _ => none)) = some (some [1, 2]) ∧
    ((handleSOUpdateSingle
        { backpack := some (Backpack.mk [{ asset_id := 1 }, { asset_id := 2 }]),
          connected := true, gcConnected := true }
        ⟨1, { id := 1 }⟩ defaultEnv).map (fun res =>
      match res.2 with
      | [GCEvent.itemUpdate _ (EventPayload.backpack b)] =>
        some (b.items.map (fun i => i.asset_id))
      | _ => none)) = some (some [1, 2]) := by
  exact ⟨by decide, by decide⟩

/-- C6 (code bug): the welcome handler calls `update_backpack` *without*
`is_cache_subscribe=True` (the keyword is never passed anywhere), so a welcome
cache item with `inventory = 0x40000005` (bit 30 set) ends with
`position = 0x0005 = 5`, not 0 as the claim states.  Had the flag been
passed, the same payload would produce position 0, as the second conjunct
shows. -/
theorem welcome_cache_position_not_reset :
    ((parseGcClientConnect
        { backpack := some (Backpack.mk [{ asset_id := 5 }]), connected := true,
          gcConnected := false }
        ⟨[[⟨1, [{ id := 5, inventory := 1073741829 }]⟩]]⟩ []).map (fun res =>
      res.1.backpack.map (fun b => b.items.map (fun i => i.position)))) =
      some (some [5]) ∧
    (mergeItem { asset_id := 5 } { id := 5, inventory := 1073741829 } true).map
      (fun r => r.position) = some 0 ∧ (5 : Nat) ≠ 0 := by
  exact ⟨by decide, by decide, by decide⟩

/-- C8 (counterexample): a GC welcome processed while the state is already
fully ready (`_connected` and `_gc_connected` both set) dispatches `gc_ready`
again — there is no once-per-session guard. -/
theorem gc_ready_reemitted_counterexample :
    parseGcClientConnect { backpack := none, connected := true, gcConnected := true } ⟨[]⟩ [] =
      some ({ backpack := none, connected := true, gcConnected := true },
        [GCEvent.gcReady]) := by
  decide

/-- C8 (amended): every successfully processed GC welcome emits `gc_ready`
exactly when the `_connected` flag is set — including re-welcomes that arrive
while already `GCReady`; the emission is not limited to once per session. -/
theorem welcome_emits_ready_iff_connected (st : GCState) (msg : ClientWelcome)
    (envs : List SyncEnv) (st2 : GCState) (evs : List GCEvent)
    (h : parseGcClientConnect st msg envs = some (st2, evs)) :
    evs = (if st.connected then [GCEvent.gcReady] else []) := by
  unfold parseGcClientConnect at h
  cases hm : msg.outofdate_subscribed_caches with
  | nil =>
    rw [hm] at h
    simp only [Option.bind_eq_bind', Option.some_bind'] at h
    cases hc : st.connected
    · rw [hc] at h
      simp only [Bool.false_eq_true, if_false, Option.some_inj, Prod.mk.injEq] at h
      simp only [Bool.false_eq_true, if_false]
      exact h.2.symm
    · rw [hc] at h
      simp only [if_true, Option.some_inj, Prod.mk.injEq] at h
      rw [if_pos rfl]
      exact h.2.symm
  | cons cache rest =>
    rw [hm] at h
    dsimp only at h
    cases hp : processBuckets st cache envs with
    | none => rw [hp] at h; cases h
    | some st3 =>
      rw [hp] at h
      simp only [Option.bind_eq_bind', Option.some_bind'] at h
      have hc3 := (processBuckets_flags cache envs st st3 hp).1
      cases hc : st.connected
      · rw [hc] at hc3
        rw [hc3] at h
        simp only [Bool.false_eq_true, if_false, Option.some_inj, Prod.mk.injEq] at h
        simp only [Bool.false_eq_true, if_false]
        exact h.2.symm
      · rw [hc] at hc3
        rw [hc3] at h
        simp only [if_true, Option.some_inj, Prod.mk.injEq] at h
        rw [if_pos rfl]
        exact h.2.symm

/-- C8 (witness): a concrete run of `welcome_emits_ready_iff_connected` for a
re-welcome while already ready. -/
theorem welcome_emits_ready_iff_connected_witness :
    ([GCEvent.gcReady] : List GCEvent) =
      (if ({ backpack := none, connected := true, gcConnected := true } : GCState).connected
       then [GCEvent.gcReady] else []) :=
  welcome_emits_ready_iff_connected
    { backpack := none, connected := true, gcConnected := true } ⟨[]⟩ []
    { backpack := none, connected := true, gcConnected := true } [GCEvent.gcReady] (by decide)

/-- C10: every SO-Create, SO-Update, SO-Update-Multiple and SO-Destroy message
whose object's `type_id` is not 1 is ignored entirely: the state (backpack
included) is returned unchanged and no event is dispatched. -/
theorem non_item_messages_ignored (st : GCState) (msg : SoSingleObject) (env : SyncEnv)
    (objs : List SoSingleObject) (envs : List SyncEnv)
    (h : msg.type_id ≠ 1) (hobjs : ∀ o ∈ objs, o.type_id ≠ 1) :
    handleSOCreate st msg env = some (st, []) ∧
    handleSOUpdateSingle st msg env = some (st, []) ∧
    handleSODestroy st msg = (st, []) ∧
    handleSOUpdateMultiple st objs envs = some (st, []) := by
  have hb : (msg.type_id != 1) = true := by
    rw [bne_iff_ne]
    exact h
  refine ⟨?_, ?_, ?_, ?_⟩
  · unfold handleSOCreate
    rw [if_pos hb]
  · unfold handleSOUpdateSingle
    rw [if_pos hb]
  · unfold handleSODestroy
    rw [if_pos hb]
  · clear h hb msg
    induction objs generalizing envs with
    | nil => rfl
    | cons o rest ih =>
      have ho : (o.type_id != 1) = true := by
        rw [bne_iff_ne]
        exact hobjs o (by simp)
      have hsingle : handleSOUpdateSingle st o (envs.headD defaultEnv) = some (st, []) := by
        unfold handleSOUpdateSingle
        rw [if_pos ho]
      unfold handleSOUpdateMultiple
      rw [hsingle]
      simp only [Option.bind_eq_bind', Option.some_bind']
      rw [ih envs.tail (fun o2 ho2 => hobjs o2 (List.mem_cons_of_mem _ ho2))]
      rfl

/-- C10 (witness): a concrete run of `non_item_messages_ignored` at
`type_id = 2` and a multi-update batch of `type_id = 3`. -/
theorem non_item_messages_ignored_witness :
    handleSOCreate {} ⟨2, {}⟩ defaultEnv = some ({}, []) ∧
    handleSOUpdateSingle {} ⟨2, {}⟩ defaultEnv = some ({}, []) ∧
    handleSODestroy {} ⟨2, {}⟩ = ({}, []) ∧
    handleSOUpdateMultiple {} [⟨3, {}⟩] [] = some ({}, []) :=
  non_item_messages_ignored {} ⟨2, {}⟩ defaultEnv [⟨3, {}⟩] [] (by decide) (by decide)

end CsgoGC
